import Mathlib

/-!
Shallow embedding of the scenario-projection core of the 50hz dashboard
(`Final_Prototype.py`, function `generate_future_scenarios_enhanced`,
lines 750-876, and its caller's `custom_params` construction, lines 878-886).

Modelling conventions:
* pandas rows become `AnnualRecord`; float values become `ℚ` (all the
  arithmetic involved is exact: sums, means, OLS, powers, `min`);
* a pandas DataFrame becomes a `List AnnualRecord` in row order;
* paths on which the Python code raises an exception or produces NaN
  (scipy `linregress` on a window with no two distinct x values; a pandas
  mean over an empty selection) are modelled as `none`;
* the `else` branch of the scenario dispatch reads widget variables from
  the enclosing scope when `custom_params` is absent; those names are
  unbound (a `NameError`) unless the UI took the Custom path, so that
  ambient fallback is modelled as `none`.
-/

/-- One historical row of `base_df`: columns `Year`, `Photovoltaics [MWh]`,
`Wind Onshore [MWh]`, `Wind Offshore [MWh]`. -/
structure AnnualRecord where
  year : Int
  solar : ℚ
  wind_onshore : ℚ
  wind_offshore : ℚ
  deriving DecidableEq, Repr

/-- The `base_values` dict of the source (lines 756-761 and 809-813). -/
structure BaseValues where
  solar_mwh : ℚ
  wind_onshore_mwh : ℚ
  wind_offshore_mwh : ℚ
  deriving DecidableEq, Repr

/-- The `params` dict of the source (lines 816-847). -/
structure ScenarioParams where
  solar_growth : ℚ
  wind_onshore_growth : ℚ
  wind_offshore_growth : ℚ
  efficiency_improvement : ℚ
  renewable_target_2050 : ℚ
  deriving DecidableEq, Repr

/-- One row of the returned scenario DataFrame (lines 866-875). -/
structure ProjectionRecord where
  year : Int
  solar : ℚ
  wind_onshore : ℚ
  wind_offshore : ℚ
  total_renewable : ℚ
  renewable_share_pct : ℚ
  scenario : String
  projection_method : String
  deriving DecidableEq, Repr

/-- Embedding of `base_df['Year'].max()` (line 766): the maximum of the
`Year` column.  The `[]` case is unreachable in the source (the empty
frame is diverted at line 755); `0` is a dead sentinel. -/
def maxYear : List AnnualRecord → Int
  | [] => 0
  | r :: rs => (rs.map (·.year)).foldl max r.year

/-- Embedding of a pandas column mean.  For an empty column pandas yields
NaN; callers below divert that case to `none` before dividing, so the
`ℚ`-division-by-zero convention is never relied upon. -/
def listMean (xs : List ℚ) : ℚ :=
  xs.sum / (xs.length : ℚ)

/-- The denominator `Σ(x-x̄)²` of the ordinary-least-squares slope, factored
out of `linregress` because it decides whether scipy fails. -/
def olsSxx (pts : List (Int × ℚ)) : ℚ :=
  let xbar : ℚ := (pts.map (fun p => (p.1 : ℚ))).sum / (pts.length : ℚ)
  (pts.map (fun p => ((p.1 : ℚ) - xbar) ^ 2)).sum

/-- Embedding of `scipy.stats.linregress` (lines 784, 799) restricted to the
slope and intercept actually used: ordinary least squares, slope
`Σ(x-x̄)(y-ȳ) / Σ(x-x̄)²`, intercept `ȳ - slope·x̄`.  scipy raises
`ValueError` when all x values are identical (hence also on fewer than two
points); that case, where `Σ(x-x̄)²` vanishes, is modelled as `none`. -/
def linregress (pts : List (Int × ℚ)) : Option (ℚ × ℚ) :=
  let n : ℚ := (pts.length : ℚ)
  let xbar : ℚ := (pts.map (fun p => (p.1 : ℚ))).sum / n
  let ybar : ℚ := (pts.map (·.2)).sum / n
  let sxy : ℚ := (pts.map (fun p => ((p.1 : ℚ) - xbar) * (p.2 - ybar))).sum
  if olsSxx pts = 0 then none
  else
    let slope := sxy / olsSxx pts
    some (slope, ybar - slope * xbar)

/-- Embedding of the baseline selection, lines 755-813: the empty frame takes
the hardcoded fallback (lines 755-762); otherwise the four branches keyed on
`projection_method`.  Note the source hardcodes `base_year = 2025` and the
window cutoffs `>= 2023` / `>= 2021` in the average and trend branches; only
the first branch consults the actual maximum year.  The final `else` (any
other method string) is the full-history regression. -/
def compute_base (base_df : List AnnualRecord) (projection_method : String) :
    Option (Int × BaseValues) :=
  if base_df = [] then
    some (2025, ⟨15000000, 35000000, 5000000⟩)
  else if projection_method = "Last Year Available (2025)" then
    let base_year := maxYear base_df
    match (base_df.filter (fun r => r.year = base_year)).head? with
    | some r => some (base_year, ⟨r.solar, r.wind_onshore, r.wind_offshore⟩)
    | none => none
  else if projection_method = "3-Year Average (2023-2025)" then
    let recent_years := base_df.filter (fun r => r.year ≥ 2023)
    if recent_years = [] then none
    else
      some (2025,
        ⟨listMean (recent_years.map (·.solar)),
         listMean (recent_years.map (·.wind_onshore)),
         listMean (recent_years.map (·.wind_offshore))⟩)
  else if projection_method = "5-Year Trend (2021-2025)" then
    let recent_years := base_df.filter (fun r => r.year ≥ 2021)
    do
      let (m1, b1) ← linregress (recent_years.map (fun r => (r.year, r.solar)))
      let (m2, b2) ← linregress (recent_years.map (fun r => (r.year, r.wind_onshore)))
      let (m3, b3) ← linregress (recent_years.map (fun r => (r.year, r.wind_offshore)))
      return (2025, ⟨m1 * 2025 + b1, m2 * 2025 + b2, m3 * 2025 + b3⟩)
  else
    do
      let (m1, b1) ← linregress (base_df.map (fun r => (r.year, r.solar)))
      let (m2, b2) ← linregress (base_df.map (fun r => (r.year, r.wind_onshore)))
      let (m3, b3) ← linregress (base_df.map (fun r => (r.year, r.wind_offshore)))
      return (2025, ⟨m1 * 2025 + b1, m2 * 2025 + b2, m3 * 2025 + b3⟩)

/-- Embedding of the scenario dispatch, lines 815-847.  Only the three named
presets are matched by string; every other `scenario_type` (the intended
`"Custom"` included) falls into the final `else`, which uses `custom_params`
when supplied and otherwise dereferences ambient UI widget variables —
unbound outside the Custom UI path, modelled as `none`. -/
def resolve_params (scenario_type : String) (custom_params : Option ScenarioParams) :
    Option ScenarioParams :=
  if scenario_type = "Conservative" then
    some ⟨0.04, 0.02, 0.06, 0.005, 0.70⟩
  else if scenario_type = "Business as Usual" then
    some ⟨0.075, 0.04, 0.12, 0.015, 0.85⟩
  else if scenario_type = "Ambitious" then
    some ⟨0.12, 0.07, 0.18, 0.025, 0.95⟩
  else
    custom_params

/-- Embedding of the caller's `custom_params` construction, lines 878-886:
slider percentages divided by 100, with `renewable_target_2050` fixed at
`0.90`. -/
def build_custom_params (solar_growth wind_onshore_growth wind_offshore_growth
    efficiency_improvement : ℚ) : ScenarioParams :=
  ⟨solar_growth / 100, wind_onshore_growth / 100, wind_offshore_growth / 100,
   efficiency_improvement / 100, 0.90⟩

/-- Embedding of the projection loop, lines 849-875: for each year in
`range(base_year + 1, 2051)`, compound growth per technology, their sum, and
the capped linear renewable-share ramp times 100. -/
def project_loop (base_year : Int) (base_values : BaseValues) (params : ScenarioParams)
    (scenario_type projection_method : String) : List ProjectionRecord :=
  ((List.range (2050 - base_year).toNat).map (fun i : ℕ => base_year + 1 + (i : Int))).map
    (fun year =>
      let years_from_base : Int := year - base_year
      let t : ℕ := years_from_base.toNat
      let solar := base_values.solar_mwh * (1 + params.solar_growth) ^ t
      let wind_onshore := base_values.wind_onshore_mwh * (1 + params.wind_onshore_growth) ^ t
      let wind_offshore := base_values.wind_offshore_mwh * (1 + params.wind_offshore_growth) ^ t
      let total_renewable := solar + wind_onshore + wind_offshore
      let renewable_share := min params.renewable_target_2050
        (0.45 + (params.renewable_target_2050 - 0.45) *
          ((years_from_base : ℚ) / ((2050 : ℚ) - (base_year : ℚ))))
      { year := year, solar := solar, wind_onshore := wind_onshore,
        wind_offshore := wind_offshore, total_renewable := total_renewable,
        renewable_share_pct := renewable_share * 100,
        scenario := scenario_type, projection_method := projection_method })

/-- Embedding of `generate_future_scenarios_enhanced` itself (lines 750-876):
baseline selection, scenario dispatch, then the projection loop; returns the
scenario rows together with `base_year` and `base_values`, as the source
does. -/
def generate_future_scenarios_enhanced (base_df : List AnnualRecord)
    (scenario_type : String) (projection_method : String)
    (custom_params : Option ScenarioParams) :
    Option (List ProjectionRecord × Int × BaseValues) := do
  let (base_year, base_values) ← compute_base base_df projection_method
  let params ← resolve_params scenario_type custom_params
  return (project_loop base_year base_values params scenario_type projection_method,
          base_year, base_values)

/-! Helper lemmas, shared by several of the verification theorems below. -/

/-- The seed of a left fold by `max` bounds the fold from below. -/
lemma le_foldl_max (l : List Int) (b : Int) : b ≤ l.foldl max b := by
  induction l generalizing b with
  | nil => exact le_refl b
  | cons x l ih => exact le_trans (le_max_left b x) (ih (max b x))

/-- Every member of a list bounds its `max`-fold from below. -/
lemma mem_le_foldl_max (l : List Int) (b a : Int) (ha : a ∈ l) :
    a ≤ l.foldl max b := by
  induction l generalizing b with
  | nil => cases ha
  | cons x l ih =>
    rcases List.mem_cons.mp ha with rfl | h
    · exact le_trans (le_max_right b a) (le_foldl_max l (max b a))
    · exact ih (max b x) h

/-- The `Year` maximum bounds every year of the frame, as pandas `.max()`
does. -/
lemma maxYear_is_ub (base_df : List AnnualRecord) (x : AnnualRecord)
    (hx : x ∈ base_df) : x.year ≤ maxYear base_df := by
  cases base_df with
  | nil => cases hx
  | cons r rs =>
    rcases List.mem_cons.mp hx with rfl | h
    · exact le_foldl_max _ _
    · exact mem_le_foldl_max _ _ _ (List.mem_map_of_mem (·.year) h)

/-- When every x value of the sample coincides, the OLS denominator
`Σ(x-x̄)²` vanishes. -/
lemma olsSxx_const_x (pts : List (Int × ℚ)) (y : Int)
    (h : ∀ p ∈ pts, p.1 = y) : olsSxx pts = 0 := by
  rcases eq_or_ne pts [] with rfl | hne
  · rfl
  · have hn : ((pts.length : ℚ)) ≠ 0 := by
      exact_mod_cast Nat.cast_ne_zero.mpr (by simpa using List.length_pos.mpr hne|>.ne')
    have hmap : pts.map (fun p => ((p.1 : ℚ))) = List.replicate pts.length (y : ℚ) := by
      rw [← List.map_const']
      exact List.map_congr_left (fun p hp => by rw [h p hp])
    have hxbar : (pts.map (fun p => ((p.1 : ℚ)))).sum / ((pts.length : ℚ)) = (y : ℚ) := by
      rw [hmap, List.sum_replicate, nsmul_eq_mul, mul_div_cancel_left₀ _ hn]
    show (pts.map (fun p =>
      ((p.1 : ℚ) - (pts.map (fun p => (p.1 : ℚ))).sum / ((pts.length : ℚ))) ^ 2)).sum = 0
    simp only [hxbar]
    exact List.sum_eq_zero (by
      intro q hq
      obtain ⟨p, hp, rfl⟩ := List.mem_map.mp hq
      rw [h p hp]; ring)

/-- With no two distinct x values, `linregress` fails (scipy `ValueError`). -/
lemma linregress_const_x (pts : List (Int × ℚ)) (y : Int)
    (h : ∀ p ∈ pts, p.1 = y) : linregress pts = none := by
  simp [linregress, olsSxx_const_x pts y h]

/-- C1: every record of the projection loop satisfies the compound-growth
formulas with exponent `t = year - reference_year`, its total is the sum of
the three technology values, and its renewable share is the capped linear
ramp `min(target, 0.45 + (target - 0.45)·t/(2050 - reference_year))`
expressed as a percentage — a right-hand side mentioning only the year, the
reference year and the target, hence independent of the generation
totals. -/
theorem C1_compound_growth_and_share (base_year : Int) (bv : BaseValues)
    (p : ScenarioParams) (st pm : String) (r : ProjectionRecord)
    (hr : r ∈ project_loop base_year bv p st pm) :
    r.solar = bv.solar_mwh * (1 + p.solar_growth) ^ (r.year - base_year).toNat ∧
    r.wind_onshore =
      bv.wind_onshore_mwh * (1 + p.wind_onshore_growth) ^ (r.year - base_year).toNat ∧
    r.wind_offshore =
      bv.wind_offshore_mwh * (1 + p.wind_offshore_growth) ^ (r.year - base_year).toNat ∧
    r.total_renewable = r.solar + r.wind_onshore + r.wind_offshore ∧
    r.renewable_share_pct =
      min p.renewable_target_2050
        (0.45 + (p.renewable_target_2050 - 0.45) *
          (((r.year - base_year : Int) : ℚ) / ((2050 : ℚ) - (base_year : ℚ)))) * 100 := by
  simp only [project_loop, List.mem_map, List.mem_range] at hr
  obtain ⟨year, ⟨i, hi, rfl⟩, rfl⟩ := hr
  exact ⟨rfl, rfl, rfl, rfl, rfl⟩

/-- Witness for C1: reference year 2049, baseline (1000, 2000, 500), the
Business-as-Usual parameters; the single projected record is the 2050 row
(values 1075, 2080, 560, total 3715, share 85%). -/
theorem C1_compound_growth_and_share_witness :
    ((⟨2050, 1075, 2080, 560, 3715, 85, "s", "m"⟩ : ProjectionRecord) ∈
        project_loop 2049 ⟨1000, 2000, 500⟩ ⟨0.075, 0.04, 0.12, 0.015, 0.85⟩ "s" "m") ∧
    ((⟨2050, 1075, 2080, 560, 3715, 85, "s", "m"⟩ : ProjectionRecord).solar =
        (⟨1000, 2000, 500⟩ : BaseValues).solar_mwh *
          (1 + (⟨0.075, 0.04, 0.12, 0.015, 0.85⟩ : ScenarioParams).solar_growth) ^
            ((⟨2050, 1075, 2080, 560, 3715, 85, "s", "m"⟩ : ProjectionRecord).year -
              2049).toNat ∧
     (⟨2050, 1075, 2080, 560, 3715, 85, "s", "m"⟩ : ProjectionRecord).wind_onshore =
        (⟨1000, 2000, 500⟩ : BaseValues).wind_onshore_mwh *
          (1 + (⟨0.075, 0.04, 0.12, 0.015, 0.85⟩ : ScenarioParams).wind_onshore_growth) ^
            ((⟨2050, 1075, 2080, 560, 3715, 85, "s", "m"⟩ : ProjectionRecord).year -
              2049).toNat ∧
     (⟨2050, 1075, 2080, 560, 3715, 85, "s", "m"⟩ : ProjectionRecord).wind_offshore =
        (⟨1000, 2000, 500⟩ : BaseValues).wind_offshore_mwh *
          (1 + (⟨0.075, 0.04, 0.12, 0.015, 0.85⟩ : ScenarioParams).wind_offshore_growth) ^
            ((⟨2050, 1075, 2080, 560, 3715, 85, "s", "m"⟩ : ProjectionRecord).year -
              2049).toNat ∧
     (⟨2050, 1075, 2080, 560, 3715, 85, "s", "m"⟩ : ProjectionRecord).total_renewable =
        (⟨2050, 1075, 2080, 560, 3715, 85, "s", "m"⟩ : ProjectionRecord).solar +
          (⟨2050, 1075, 2080, 560, 3715, 85, "s", "m"⟩ : ProjectionRecord).wind_onshore +
          (⟨2050, 1075, 2080, 560, 3715, 85, "s", "m"⟩ : ProjectionRecord).wind_offshore ∧
     (⟨2050, 1075, 2080, 560, 3715, 85, "s", "m"⟩ : ProjectionRecord).renewable_share_pct =
        min (⟨0.075, 0.04, 0.12, 0.015, 0.85⟩ : ScenarioParams).renewable_target_2050
          (0.45 + ((⟨0.075, 0.04, 0.12, 0.015, 0.85⟩ : ScenarioParams).renewable_target_2050
              - 0.45) *
            ((((⟨2050, 1075, 2080, 560, 3715, 85, "s", "m"⟩ : ProjectionRecord).year -
                2049 : Int) : ℚ) / ((2050 : ℚ) - ((2049 : Int) : ℚ)))) * 100) := by
  have hmem : (⟨2050, 1075, 2080, 560, 3715, 85, "s", "m"⟩ : ProjectionRecord) ∈
      project_loop 2049 ⟨1000, 2000, 500⟩ ⟨0.075, 0.04, 0.12, 0.015, 0.85⟩ "s" "m" := by
    norm_num [project_loop, List.range_succ, min_def]
  exact ⟨hmem,
    C1_compound_growth_and_share 2049 ⟨1000, 2000, 500⟩ ⟨0.075, 0.04, 0.12, 0.015, 0.85⟩
      "s" "m" ⟨2050, 1075, 2080, 560, 3715, 85, "s", "m"⟩ hmem⟩

/-- C7: for a reference year before 2050 the projection has exactly
`2050 - reference_year` records, and its year column is exactly the list of
consecutive integers `reference_year + 1 .. 2050` in ascending order. -/
theorem C7_projection_years (base_year : Int) (h : base_year < 2050)
    (bv : BaseValues) (p : ScenarioParams) (st pm : String) :
    ((project_loop base_year bv p st pm).length : Int) = 2050 - base_year ∧
    (project_loop base_year bv p st pm).map (·.year) =
      (List.range (2050 - base_year).toNat).map (fun i : ℕ => base_year + 1 + (i : Int)) := by
  constructor
  · unfold project_loop
    rw [List.length_map, List.length_map, List.length_range]
    omega
  · unfold project_loop
    rw [List.map_map, List.map_map]
    exact List.map_congr_left (fun i _ => rfl)

/-- Witness for C7 at reference year 2048: two records, years 2049 and
2050. -/
theorem C7_projection_years_witness :
    (2048 : Int) < 2050 ∧
    ((project_loop 2048 ⟨1, 2, 3⟩ ⟨0.04, 0.02, 0.06, 0.005, 0.70⟩ "s" "m").length : Int) = 2 ∧
    (project_loop 2048 ⟨1, 2, 3⟩ ⟨0.04, 0.02, 0.06, 0.005, 0.70⟩ "s" "m").map (·.year) =
      [2049, 2050] := by
  have h := C7_projection_years 2048 (by decide) ⟨1, 2, 3⟩ ⟨0.04, 0.02, 0.06, 0.005, 0.70⟩
    "s" "m"
  exact ⟨by decide, h.1.trans (by decide), h.2.trans (by decide)⟩

/-- C9 counterexample: a baseline whose reference year 2055 is at or past
the fixed 2050 horizon does not make the function fail — it returns
successfully with the empty record sequence, so the claimed
`InvalidHorizonError` does not exist in the code. -/
theorem C9_counterexample :
    generate_future_scenarios_enhanced [⟨2055, 1, 2, 3⟩] "Conservative"
        "Last Year Available (2025)" none =
      some ([], 2055, ⟨1, 2, 3⟩) := by decide

/-- C9 amended: whenever the fixed 2050 horizon is at or before the
reference year, `range(base_year + 1, 2051)` is empty and the projection
loop returns the empty sequence; no error is raised. -/
theorem C9_amended_empty_projection (base_year : Int) (h : 2050 ≤ base_year)
    (bv : BaseValues) (p : ScenarioParams) (st pm : String) :
    project_loop base_year bv p st pm = [] := by
  unfold project_loop
  have h0 : (2050 - base_year).toNat = 0 := by omega
  rw [h0]
  rfl

/-- Witness for C9 amended at reference year 2050. -/
theorem C9_amended_empty_projection_witness :
    (2050 : Int) ≤ 2050 ∧
    project_loop 2050 ⟨1, 2, 3⟩ ⟨0.04, 0.02, 0.06, 0.005, 0.70⟩ "s" "m" = [] :=
  ⟨by decide,
   C9_amended_empty_projection 2050 (by decide) ⟨1, 2, 3⟩ ⟨0.04, 0.02, 0.06, 0.005, 0.70⟩
     "s" "m"⟩

/-- C2 counterexample: for the series {2023: 10, 2024: 20} the maximum year
present is 2024, yet the 3-Year-Average branch returns reference year 2025 —
the source hardcodes `base_year = 2025` (line 771) instead of consulting the
maximum year, so the claimed `reference_year = max year` fails. -/
theorem C2_counterexample :
    compute_base [⟨2023, 10, 10, 10⟩, ⟨2024, 20, 20, 20⟩] "3-Year Average (2023-2025)" =
      some (2025, ⟨15, 15, 15⟩) ∧
    maxYear [⟨2023, 10, 10, 10⟩, ⟨2024, 20, 20, 20⟩] = 2024 ∧ (2025 : Int) ≠ 2024 := by
  refine ⟨?_, by decide, by decide⟩
  rw [compute_base]
  rw [if_neg (by decide), if_neg (by decide), if_pos rfl, if_neg (by decide)]
  norm_num [listMean]

/-- C2 amended: under the 3-Year-Average method, on a non-empty series whose
window `year ≥ 2023` is non-empty, the reference year is the constant 2025
and each technology value is the arithmetic mean of that field over exactly
the records with `year ≥ 2023` (a hardcoded cutoff, not `max_year - 2`);
years absent from that window are simply excluded — no imputation. -/
theorem C2_amended_recent_average (base_df : List AnnualRecord) (hne : base_df ≠ [])
    (hw : base_df.filter (fun r => r.year ≥ 2023) ≠ []) :
    compute_base base_df "3-Year Average (2023-2025)" =
      some (2025,
        ⟨((base_df.filter (fun r => r.year ≥ 2023)).map (·.solar)).sum /
            ((base_df.filter (fun r => r.year ≥ 2023)).length : ℚ),
         ((base_df.filter (fun r => r.year ≥ 2023)).map (·.wind_onshore)).sum /
            ((base_df.filter (fun r => r.year ≥ 2023)).length : ℚ),
         ((base_df.filter (fun r => r.year ≥ 2023)).map (·.wind_offshore)).sum /
            ((base_df.filter (fun r => r.year ≥ 2023)).length : ℚ)⟩) := by
  rw [compute_base]
  rw [if_neg hne, if_neg (by decide), if_pos rfl, if_neg hw]
  simp [listMean]

/-- Witness for C2 amended on the spec's own example {2023: 10, 2024: 20,
2025: 30}: the mean 20 (here the window and the last three present years
coincide, so the spec's example value is reproduced). -/
theorem C2_amended_recent_average_witness :
    (([⟨2023, 10, 10, 10⟩, ⟨2024, 20, 20, 20⟩, ⟨2025, 30, 30, 30⟩] : List AnnualRecord) ≠
      []) ∧
    (([⟨2023, 10, 10, 10⟩, ⟨2024, 20, 20, 20⟩, ⟨2025, 30, 30, 30⟩] :
        List AnnualRecord).filter (fun r => r.year ≥ 2023) ≠ []) ∧
    compute_base [⟨2023, 10, 10, 10⟩, ⟨2024, 20, 20, 20⟩, ⟨2025, 30, 30, 30⟩]
        "3-Year Average (2023-2025)" = some (2025, ⟨20, 20, 20⟩) := by
  have h := C2_amended_recent_average
    [⟨2023, 10, 10, 10⟩, ⟨2024, 20, 20, 20⟩, ⟨2025, 30, 30, 30⟩] (by decide) (by decide)
  exact ⟨by decide, by decide, h.trans (by norm_num)⟩

/-- C3 counterexample: for the series {2022: 10, 2023: 20, 2024: 30} the
maximum year present is 2024 and the fitted line evaluated there gives 30,
yet the 5-Year-Trend branch hardcodes `base_year = 2025` (line 778) and
returns the fitted value 40 at 2025, so the claimed
`reference_year = max year` (and evaluation at it) fails. -/
theorem C3_counterexample :
    compute_base [⟨2022, 10, 10, 10⟩, ⟨2023, 20, 20, 20⟩, ⟨2024, 30, 30, 30⟩]
        "5-Year Trend (2021-2025)" = some (2025, ⟨40, 40, 40⟩) ∧
    maxYear [⟨2022, 10, 10, 10⟩, ⟨2023, 20, 20, 20⟩, ⟨2024, 30, 30, 30⟩] = 2024 ∧
    (2025 : Int) ≠ 2024 := by
  refine ⟨?_, by decide, by decide⟩
  rw [compute_base]
  rw [if_neg (by decide), if_neg (by decide), if_neg (by decide), if_pos rfl]
  norm_num [linregress, olsSxx]

/-- C3 amended: the trend baselines have reference year fixed at 2025 (not
the maximum year present); per technology field, the 5-Year-Trend branch
fits OLS over the records with `year ≥ 2021` (a hardcoded cutoff) and the
full-trend branch over the entire series, each evaluated at 2025. -/
theorem C3_amended_trend_baselines (base_df : List AnnualRecord) (hne : base_df ≠ [])
    (m1 b1 m2 b2 m3 b3 n1 c1 n2 c2 n3 c3 : ℚ)
    (h1 : linregress ((base_df.filter (fun r => r.year ≥ 2021)).map
        (fun r => (r.year, r.solar))) = some (m1, b1))
    (h2 : linregress ((base_df.filter (fun r => r.year ≥ 2021)).map
        (fun r => (r.year, r.wind_onshore))) = some (m2, b2))
    (h3 : linregress ((base_df.filter (fun r => r.year ≥ 2021)).map
        (fun r => (r.year, r.wind_offshore))) = some (m3, b3))
    (g1 : linregress (base_df.map (fun r => (r.year, r.solar))) = some (n1, c1))
    (g2 : linregress (base_df.map (fun r => (r.year, r.wind_onshore))) = some (n2, c2))
    (g3 : linregress (base_df.map (fun r => (r.year, r.wind_offshore))) = some (n3, c3)) :
    compute_base base_df "5-Year Trend (2021-2025)" =
      some (2025, ⟨m1 * 2025 + b1, m2 * 2025 + b2, m3 * 2025 + b3⟩) ∧
    compute_base base_df "Full Historical Trend (2015-2025)" =
      some (2025, ⟨n1 * 2025 + c1, n2 * 2025 + c2, n3 * 2025 + c3⟩) := by
  constructor
  · rw [compute_base]
    rw [if_neg hne, if_neg (by decide), if_neg (by decide), if_pos rfl]
    simp only [h1, h2, h3]
    rfl
  · rw [compute_base]
    rw [if_neg hne, if_neg (by decide), if_neg (by decide), if_neg (by decide)]
    rw [g1, g2, g3]
    rfl

/-- Witness for C3 amended on the spec's two-point example {2024: 10,
2025: 14}: the fit (slope 4, intercept -8086) passes through both points and
both trend methods return 14 at 2025 (the maximum year here is 2025, so the
spec's example value survives the correction). -/
theorem C3_amended_trend_baselines_witness :
    linregress ((([⟨2024, 10, 10, 10⟩, ⟨2025, 14, 14, 14⟩] : List AnnualRecord).filter
        (fun r => r.year ≥ 2021)).map (fun r => (r.year, r.solar))) = some (4, -8086) ∧
    linregress (([⟨2024, 10, 10, 10⟩, ⟨2025, 14, 14, 14⟩] : List AnnualRecord).map
        (fun r => (r.year, r.solar))) = some (4, -8086) ∧
    compute_base [⟨2024, 10, 10, 10⟩, ⟨2025, 14, 14, 14⟩] "5-Year Trend (2021-2025)" =
      some (2025, ⟨14, 14, 14⟩) ∧
    compute_base [⟨2024, 10, 10, 10⟩, ⟨2025, 14, 14, 14⟩]
      "Full Historical Trend (2015-2025)" = some (2025, ⟨14, 14, 14⟩) := by
  have hr : linregress ((([⟨2024, 10, 10, 10⟩, ⟨2025, 14, 14, 14⟩] :
      List AnnualRecord).filter (fun r => r.year ≥ 2021)).map
        (fun r => (r.year, r.solar))) = some (4, -8086) := by
    norm_num [linregress, olsSxx]
  have hf : linregress (([⟨2024, 10, 10, 10⟩, ⟨2025, 14, 14, 14⟩] :
      List AnnualRecord).map (fun r => (r.year, r.solar))) = some (4, -8086) := by
    norm_num [linregress, olsSxx]
  have hr2 : linregress ((([⟨2024, 10, 10, 10⟩, ⟨2025, 14, 14, 14⟩] :
      List AnnualRecord).filter (fun r => r.year ≥ 2021)).map
        (fun r => (r.year, r.wind_onshore))) = some (4, -8086) := by
    norm_num [linregress, olsSxx]
  have hr3 : linregress ((([⟨2024, 10, 10, 10⟩, ⟨2025, 14, 14, 14⟩] :
      List AnnualRecord).filter (fun r => r.year ≥ 2021)).map
        (fun r => (r.year, r.wind_offshore))) = some (4, -8086) := by
    norm_num [linregress, olsSxx]
  have hf2 : linregress (([⟨2024, 10, 10, 10⟩, ⟨2025, 14, 14, 14⟩] :
      List AnnualRecord).map (fun r => (r.year, r.wind_onshore))) = some (4, -8086) := by
    norm_num [linregress, olsSxx]
  have hf3 : linregress (([⟨2024, 10, 10, 10⟩, ⟨2025, 14, 14, 14⟩] :
      List AnnualRecord).map (fun r => (r.year, r.wind_offshore))) = some (4, -8086) := by
    norm_num [linregress, olsSxx]
  have h := C3_amended_trend_baselines [⟨2024, 10, 10, 10⟩, ⟨2025, 14, 14, 14⟩]
    (by decide) 4 (-8086) 4 (-8086) 4 (-8086) 4 (-8086) 4 (-8086) 4 (-8086)
    hr hr2 hr3 hf hf2 hf3
  exact ⟨hr, hf, h.1.trans (by norm_num), h.2.trans (by norm_num)⟩

/-- C4 counterexample: on the empty series the function does not fail and no
error is propagated — line 755 substitutes the hardcoded fallback baseline
inside the function and the call returns successfully, contradicting the
claimed `InsufficientDataError`. -/
theorem C4_counterexample :
    (generate_future_scenarios_enhanced [] "Conservative" "Last Year Available (2025)"
        none).isSome = true ∧
    compute_base [] "Last Year Available (2025)" =
      some (2025, ⟨15000000, 35000000, 5000000⟩) :=
  ⟨by decide, rfl⟩

/-- C4 amended: baseline estimation never raises `InsufficientDataError`:
the empty series takes the hardcoded fallback baseline inside the function,
while either trend method — the 5-Year-Trend branch over its `year ≥ 2021`
window and the full-history branch over the entire series — fails through
the unhandled scipy `ValueError` (modelled as `none`) when its regression
window has no two distinct years. -/
theorem C4_amended_no_insufficient_data_error (base_df : List AnnualRecord)
    (hne : base_df ≠ []) (y5 yf : Int)
    (hdeg5 : ∀ r ∈ base_df.filter (fun r => r.year ≥ 2021), r.year = y5)
    (hdegF : ∀ r ∈ base_df, r.year = yf) :
    compute_base [] "5-Year Trend (2021-2025)" =
      some (2025, ⟨15000000, 35000000, 5000000⟩) ∧
    compute_base base_df "5-Year Trend (2021-2025)" = none ∧
    compute_base base_df "Full Historical Trend (2015-2025)" = none := by
  refine ⟨rfl, ?_, ?_⟩
  · have hpts : ∀ q ∈ (base_df.filter (fun r => r.year ≥ 2021)).map
        (fun r => (r.year, r.solar)), q.1 = y5 := by
      intro q hq
      obtain ⟨r, hr, rfl⟩ := List.mem_map.mp hq
      exact hdeg5 r hr
    rw [compute_base]
    rw [if_neg hne, if_neg (by decide), if_neg (by decide), if_pos rfl]
    simp only [linregress_const_x _ y5 hpts]
    rfl
  · have hpts : ∀ q ∈ base_df.map (fun r => (r.year, r.solar)), q.1 = yf := by
      intro q hq
      obtain ⟨r, hr, rfl⟩ := List.mem_map.mp hq
      exact hdegF r hr
    rw [compute_base]
    rw [if_neg hne, if_neg (by decide), if_neg (by decide), if_neg (by decide)]
    rw [linregress_const_x _ yf hpts]
    rfl

/-- Witness for C4 amended: the one-record series {2025: 10} has a single
distinct year in both regression windows, so the 5-Year-Trend and
full-history baselines fail (while the empty series still gets the
fallback). -/
theorem C4_amended_no_insufficient_data_error_witness :
    ([(⟨2025, 10, 10, 10⟩ : AnnualRecord)] ≠ []) ∧
    (∀ r ∈ ([(⟨2025, 10, 10, 10⟩ : AnnualRecord)]).filter (fun r => r.year ≥ 2021),
      r.year = 2025) ∧
    (∀ r ∈ [(⟨2025, 10, 10, 10⟩ : AnnualRecord)], r.year = 2025) ∧
    (compute_base [] "5-Year Trend (2021-2025)" =
        some (2025, ⟨15000000, 35000000, 5000000⟩) ∧
      compute_base [⟨2025, 10, 10, 10⟩] "5-Year Trend (2021-2025)" = none ∧
      compute_base [⟨2025, 10, 10, 10⟩] "Full Historical Trend (2015-2025)" = none) :=
  ⟨by decide, by decide, by decide,
   C4_amended_no_insufficient_data_error [⟨2025, 10, 10, 10⟩] (by decide) 2025 2025
     (by decide) (by decide)⟩

/-- C5 counterexample: a name outside the four documented presets does not
fail — it silently falls into the custom branch and resolves to the supplied
parameters, so the claimed `UnknownPresetError` does not exist. -/
theorem C5_counterexample :
    resolve_params "Totally Unknown Scenario" (some ⟨1, 2, 3, 4, 5⟩) =
      some ⟨1, 2, 3, 4, 5⟩ ∧
    ¬("Totally Unknown Scenario" = "Conservative" ∨
      "Totally Unknown Scenario" = "Business as Usual" ∨
      "Totally Unknown Scenario" = "Ambitious" ∨
      "Totally Unknown Scenario" = "Custom") :=
  ⟨rfl, by decide⟩

/-- C5 amended: only Conservative, Business as Usual and Ambitious are
recognised by name; every other name (Custom included) takes the custom
branch, resolving to the caller-supplied parameters when present and to the
ambient-widget fallback (unbound outside the Custom UI path, modelled as
`none`) otherwise; no `UnknownPresetError` or `MissingParameterError` is
raised. -/
theorem C5_amended_fallthrough (name : String)
    (h1 : name ≠ "Conservative") (h2 : name ≠ "Business as Usual")
    (h3 : name ≠ "Ambitious") (p : ScenarioParams) :
    resolve_params name (some p) = some p ∧ resolve_params name none = none := by
  constructor
  · rw [resolve_params, if_neg h1, if_neg h2, if_neg h3]
  · rw [resolve_params, if_neg h1, if_neg h2, if_neg h3]

/-- Witness for C5 amended at the name "Custom" itself. -/
theorem C5_amended_fallthrough_witness :
    ("Custom" ≠ "Conservative" ∧ "Custom" ≠ "Business as Usual" ∧
      "Custom" ≠ "Ambitious") ∧
    (resolve_params "Custom" (some ⟨1, 2, 3, 4, 5⟩) = some ⟨1, 2, 3, 4, 5⟩ ∧
      resolve_params "Custom" none = none) :=
  ⟨⟨by decide, by decide, by decide⟩,
   C5_amended_fallthrough "Custom" (by decide) (by decide) (by decide) ⟨1, 2, 3, 4, 5⟩⟩

/-- C6: the three named presets map to exactly the tabulated growth rates
and target shares (4%/2%/6% with 70%; 7.5%/4%/12% with 85%; 12%/7%/18% with
95%), and the Custom path — the caller-built parameter dict — carries the
caller's slider percentages divided by 100 with the target share fixed at
90%. -/
theorem C6_preset_table :
    (∀ cp, resolve_params "Conservative" cp = some ⟨0.04, 0.02, 0.06, 0.005, 0.70⟩) ∧
    (∀ cp, resolve_params "Business as Usual" cp =
      some ⟨0.075, 0.04, 0.12, 0.015, 0.85⟩) ∧
    (∀ cp, resolve_params "Ambitious" cp = some ⟨0.12, 0.07, 0.18, 0.025, 0.95⟩) ∧
    (∀ sg wog wfg ei : ℚ,
      resolve_params "Custom" (some (build_custom_params sg wog wfg ei)) =
        some ⟨sg / 100, wog / 100, wfg / 100, ei / 100, 0.90⟩) :=
  ⟨fun _ => rfl, fun _ => rfl, fun _ => rfl, fun _ _ _ _ => rfl⟩

/-- C8: under the Last-Year-Available method, when exactly one record holds
the maximum year, the baseline is that maximum year together with that
record's field values verbatim (and the maximum year indeed bounds every
year of the series). -/
theorem C8_latest_year (base_df : List AnnualRecord) (r : AnnualRecord)
    (h : base_df.filter (fun x => x.year = maxYear base_df) = [r]) :
    compute_base base_df "Last Year Available (2025)" =
      some (maxYear base_df, ⟨r.solar, r.wind_onshore, r.wind_offshore⟩) ∧
    r.year = maxYear base_df ∧
    ∀ x ∈ base_df, x.year ≤ r.year := by
  have hne : base_df ≠ [] := by
    intro he
    rw [he] at h
    simp at h
  have hmem : r ∈ base_df.filter (fun x => x.year = maxYear base_df) := by
    rw [h]
    exact List.mem_singleton_self r
  have hy : r.year = maxYear base_df := of_decide_eq_true (List.mem_filter.mp hmem).2
  refine ⟨?_, hy, ?_⟩
  · rw [compute_base, if_neg hne, if_pos rfl]
    simp only [h]
    rfl
  · intro x hx
    rw [hy]
    exact maxYear_is_ub base_df x hx

/-- Witness for C8 on the series {2024: (1,2,3), 2025: (7,8,9)}: the
baseline is (2025, 7, 8, 9), the 2025 record verbatim. -/
theorem C8_latest_year_witness :
    (([⟨2024, 1, 2, 3⟩, ⟨2025, 7, 8, 9⟩] : List AnnualRecord).filter
        (fun x => x.year = maxYear [⟨2024, 1, 2, 3⟩, ⟨2025, 7, 8, 9⟩]) =
      [⟨2025, 7, 8, 9⟩]) ∧
    compute_base [⟨2024, 1, 2, 3⟩, ⟨2025, 7, 8, 9⟩] "Last Year Available (2025)" =
      some (2025, ⟨7, 8, 9⟩) ∧
    (⟨2025, 7, 8, 9⟩ : AnnualRecord).year = maxYear [⟨2024, 1, 2, 3⟩, ⟨2025, 7, 8, 9⟩] ∧
    ∀ x ∈ ([⟨2024, 1, 2, 3⟩, ⟨2025, 7, 8, 9⟩] : List AnnualRecord),
      x.year ≤ (⟨2025, 7, 8, 9⟩ : AnnualRecord).year := by
  have h := C8_latest_year [⟨2024, 1, 2, 3⟩, ⟨2025, 7, 8, 9⟩] ⟨2025, 7, 8, 9⟩ (by decide)
  exact ⟨by decide, h.1.trans (by decide), h.2.1, h.2.2⟩

/-- C10: on the empty input series the function succeeds — line 755
substitutes the hardcoded fallback baseline (15000000, 35000000, 5000000
MWh) with reference year 2025 inside the function itself — and the result is
the full 25-year projection over 2026..2050 computed from that fallback. -/
theorem C10_empty_series_fallback (scenario_type projection_method : String)
    (custom_params : Option ScenarioParams) (p : ScenarioParams)
    (hp : resolve_params scenario_type custom_params = some p) :
    generate_future_scenarios_enhanced [] scenario_type projection_method custom_params =
      some (project_loop 2025 ⟨15000000, 35000000, 5000000⟩ p scenario_type
          projection_method, 2025, ⟨15000000, 35000000, 5000000⟩) ∧
    (project_loop 2025 ⟨15000000, 35000000, 5000000⟩ p scenario_type
        projection_method).length = 25 ∧
    (project_loop 2025 ⟨15000000, 35000000, 5000000⟩ p scenario_type
        projection_method).map (·.year) =
      (List.range 25).map (fun i : ℕ => 2026 + (i : Int)) := by
  refine ⟨?_, ?_, ?_⟩
  · unfold generate_future_scenarios_enhanced
    rw [show compute_base [] projection_method =
      some (2025, ⟨15000000, 35000000, 5000000⟩) from rfl]
    rw [hp]
    rfl
  · unfold project_loop
    rw [List.length_map, List.length_map, List.length_range]
    decide
  · unfold project_loop
    rw [show ((2050 : Int) - 2025).toNat = 25 from by decide]
    rw [List.map_map, List.map_map]
    refine List.map_congr_left (fun i _ => ?_)
    show (2025 : Int) + 1 + (i : Int) = 2026 + (i : Int)
    omega

/-- Witness for C10 under the Business-as-Usual preset and the default
3-Year-Average method string: the 25 projected years are 2026..2050. -/
theorem C10_empty_series_fallback_witness :
    resolve_params "Business as Usual" none = some ⟨0.075, 0.04, 0.12, 0.015, 0.85⟩ ∧
    generate_future_scenarios_enhanced [] "Business as Usual"
        "3-Year Average (2023-2025)" none =
      some (project_loop 2025 ⟨15000000, 35000000, 5000000⟩
          ⟨0.075, 0.04, 0.12, 0.015, 0.85⟩ "Business as Usual"
          "3-Year Average (2023-2025)", 2025, ⟨15000000, 35000000, 5000000⟩) ∧
    (project_loop 2025 ⟨15000000, 35000000, 5000000⟩ ⟨0.075, 0.04, 0.12, 0.015, 0.85⟩
        "Business as Usual" "3-Year Average (2023-2025)").length = 25 ∧
    (project_loop 2025 ⟨15000000, 35000000, 5000000⟩ ⟨0.075, 0.04, 0.12, 0.015, 0.85⟩
        "Business as Usual" "3-Year Average (2023-2025)").map (·.year) =
      [2026, 2027, 2028, 2029, 2030, 2031, 2032, 2033, 2034, 2035, 2036, 2037, 2038,
        2039, 2040, 2041, 2042, 2043, 2044, 2045, 2046, 2047, 2048, 2049, 2050] := by
  have h := C10_empty_series_fallback "Business as Usual" "3-Year Average (2023-2025)"
    none ⟨0.075, 0.04, 0.12, 0.015, 0.85⟩ rfl
  exact ⟨rfl, h.1, h.2.1, h.2.2.trans (by decide)⟩
